import Mathlib

/-!
Shallow embedding of the two source files of `polygrok/react-native-paper`:

* `src/components/Drawer/DrawerSection.tsx` — the `DrawerSection` component:
  resolution of title color, title left margin, title font, the title
  container, the pass-through of children, and the optional trailing divider.
* `src/components/TextInput/Adornment/enums.tsx` — the three adornment
  enumerations (`AdornmentType`, `AdornmentSide`, `InputMode`).

JavaScript optional values are modelled as `Option`; JS truthiness of an
optional string (empty string is falsy) and of an optional boolean
(`undefined` is falsy) are modelled explicitly.  React-Native style arrays
are kept as lists of partial styles, with a `flatten` operation mirroring
`StyleSheet.flatten` (later entries override earlier ones).
-/

/-- An RGB color with an alpha channel, standing in for the color strings of
the theme palette.  The alpha channel is stored as an integer percentage
(0–100) so that the embedding stays in `Nat`; the `color` JS library's
`alpha(0.54)` corresponds to `alphaPct := 54`. -/
structure Color where
  r : Nat
  g : Nat
  b : Nat
  alphaPct : Nat
  deriving DecidableEq, Repr

/-- Embedding of `color(c).alpha(0.54).rgb().string()` from the `color` JS
library (third-party dependency, not part of this repository): the same
color with its alpha channel replaced by 54%. -/
def alpha054 (c : Color) : Color :=
  { c with alphaPct := 54 }

/-- A concrete font style from the theme's font table (`theme.fonts.*`). -/
structure FontStyle where
  fontFamily : String
  fontWeight : String
  fontSize : Nat
  deriving DecidableEq, Repr

/-- The named semantic colors of the theme used by `DrawerSection`:
`theme.colors.text` (legacy base text color) and
`theme.colors.onSurfaceVariant` (MD3 semantic color). -/
structure ThemeColors where
  text : Color
  onSurfaceVariant : Color
  deriving DecidableEq, Repr

/-- The named font styles of the theme used by `DrawerSection`:
`theme.fonts.titleSmall` (MD3) and `theme.fonts.medium` (legacy). -/
structure ThemeFonts where
  titleSmall : FontStyle
  medium : FontStyle
  deriving DecidableEq, Repr

/-- The theme object consumed by `DrawerSection`: the `isV3` generation flag,
the color palette and the font table. -/
structure Theme where
  isV3 : Bool
  colors : ThemeColors
  fonts : ThemeFonts
  deriving DecidableEq, Repr

/-- Modelled from the spec: `useInternalTheme` (from `../../core/theming`,
not under `src/`) is "a theme-resolution function supplied by an external
theming provider, returning the active theme (with fallback to a provided
override)" — the override, when present, wins over the ambient theme. -/
def useInternalTheme (overrides : Option Theme) (ambient : Theme) : Theme :=
  overrides.getD ambient

/-- Modelled from the spec: the "generation-specific background tint"
`MD3Colors.neutralVariant50` from the v3 tokens module
(`../../styles/themes/v3/tokens`, not under `src/`).  A fixed opaque token
color; the concrete channel values are immaterial to every claim. -/
def MD3Colors_neutralVariant50 : Color :=
  { r := 121, g := 116, b := 126, alphaPct := 100 }

/-- A partial view style: the `ViewStyle` fields that appear in
`DrawerSection.tsx` (`height`, `justifyContent`, `marginBottom`,
`marginTop`, `backgroundColor`), each optional. -/
structure ViewStyle where
  height : Option Nat := none
  justifyContent : Option String := none
  marginBottom : Option Nat := none
  marginTop : Option Nat := none
  backgroundColor : Option Color := none
  deriving DecidableEq, Repr

/-- A partial text style: the fields applied to the title `Text` label
(`color`, `marginLeft`, and the three font fields that `{...font}`
spreads in). -/
structure TextStyle where
  color : Option Color := none
  marginLeft : Option Nat := none
  fontFamily : Option String := none
  fontWeight : Option String := none
  fontSize : Option Nat := none
  deriving DecidableEq, Repr

/-- The spread `{...font}` of a theme font style into a text style. -/
def spreadFont (f : FontStyle) : TextStyle :=
  { fontFamily := some f.fontFamily
    fontWeight := some f.fontWeight
    fontSize := some f.fontSize }

/-- Right-biased merge of two partial view styles, as in a React-Native
style array: fields of the later style override the earlier one. -/
def ViewStyle.merge (a b : ViewStyle) : ViewStyle :=
  { height := (b.height).orElse fun _ => a.height
    justifyContent := (b.justifyContent).orElse fun _ => a.justifyContent
    marginBottom := (b.marginBottom).orElse fun _ => a.marginBottom
    marginTop := (b.marginTop).orElse fun _ => a.marginTop
    backgroundColor := (b.backgroundColor).orElse fun _ => a.backgroundColor }

/-- `StyleSheet.flatten` for view-style arrays: left fold of the
right-biased merge starting from the empty style. -/
def flattenView (l : List ViewStyle) : ViewStyle :=
  l.foldl ViewStyle.merge {}

/-- Right-biased merge of two partial text styles. -/
def TextStyle.merge (a b : TextStyle) : TextStyle :=
  { color := (b.color).orElse fun _ => a.color
    marginLeft := (b.marginLeft).orElse fun _ => a.marginLeft
    fontFamily := (b.fontFamily).orElse fun _ => a.fontFamily
    fontWeight := (b.fontWeight).orElse fun _ => a.fontWeight
    fontSize := (b.fontSize).orElse fun _ => a.fontSize }

/-- `StyleSheet.flatten` for text-style arrays. -/
def flattenText (l : List TextStyle) : TextStyle :=
  l.foldl TextStyle.merge {}

/-- JS truthiness of an optional string: `undefined` and `""` are falsy. -/
def strTruthy : Option String → Bool
  | none => false
  | some s => s ≠ ""

/-- JS truthiness of an optional boolean: `undefined` is falsy. -/
def boolTruthy (o : Option Bool) : Bool :=
  o.getD false

/-- The `StyleSheet.create` block of `DrawerSection.tsx`: `container`
(marginBottom 4). -/
def styles.container : ViewStyle :=
  { marginBottom := some 4 }

/-- `styles.titleContainer`: height 40, justifyContent center. -/
def styles.titleContainer : ViewStyle :=
  { height := some 40, justifyContent := some "center" }

/-- `styles.v3TitleContainer`: height 56. -/
def styles.v3TitleContainer : ViewStyle :=
  { height := some 56 }

/-- `styles.divider`: marginTop 4. -/
def styles.divider : ViewStyle :=
  { marginTop := some 4 }

/-- `styles.v3Divider`: background tinted with `MD3Colors.neutralVariant50`. -/
def styles.v3Divider : ViewStyle :=
  { backgroundColor := some MD3Colors_neutralVariant50 }

/-- The props of `DrawerSection` (the `Props` type of the source), with
children of an arbitrary type `χ` and the open-ended pass-through
attribute bag `rest` kept as an opaque key/value list. -/
structure Props (χ : Type) where
  title : Option String := none
  children : χ
  showDivider : Option Bool := none
  titleMaxFontSizeMultiplier : Option Nat := none
  style : List ViewStyle := []
  theme : Option Theme := none
  enableCustomStyle : Option Bool := none
  rest : List (String × String) := []
  deriving DecidableEq, Repr

/-- The rendered title `Text` label: its `variant`, `numberOfLines`, style
array, optional `maxFontSizeMultiplier`, and the title text itself. -/
structure TextNode where
  variant : String
  numberOfLines : Nat
  style : List TextStyle
  maxFontSizeMultiplier : Option Nat
  text : String
  deriving DecidableEq, Repr

/-- The rendered title container `View` with its style array and the
(inner-guarded) title label. -/
structure TitleContainer where
  style : List ViewStyle
  label : Option TextNode
  deriving DecidableEq, Repr

/-- The rendered `Divider` element: its optional `horizontalInset` and
`bold` props (absent on legacy themes, where the conditional spread
contributes nothing), its style array, and the theme it is handed. -/
structure DividerNode where
  horizontalInset : Option Bool
  bold : Option Bool
  style : List ViewStyle
  theme : Theme
  deriving DecidableEq, Repr

/-- The render tree produced by one invocation of `DrawerSection`: the
outer container's style array and forwarded attributes, the optional title
container, the pass-through children, and the optional divider (which is
emitted after the children). -/
structure RenderTree (χ : Type) where
  containerStyle : List ViewStyle
  rest : List (String × String)
  titleContainer : Option TitleContainer
  children : χ
  divider : Option DividerNode
  deriving DecidableEq, Repr

/-- The `DrawerSection` render function, translated line by line from
`src/components/Drawer/DrawerSection.tsx`.  `ambient` is the theme held by
the ambient theming context that `useInternalTheme` falls back to. -/
def DrawerSection {χ : Type} (ambient : Theme) (p : Props χ) : RenderTree χ :=
  let theme := useInternalTheme p.theme ambient
  let isV3 := theme.isV3
  let titleColor :=
    if isV3 then theme.colors.onSurfaceVariant
    else alpha054 theme.colors.text
  let ecs := boolTruthy p.enableCustomStyle
  let titleMargin := if isV3 && !ecs then 28 else 16
  let font := if isV3 then theme.fonts.titleSmall else theme.fonts.medium
  let showDivider := p.showDivider.getD true
  { containerStyle := styles.container :: p.style
    rest := p.rest
    titleContainer :=
      if strTruthy p.title then
        some
          { style :=
              [styles.titleContainer,
               if isV3 && !ecs then styles.v3TitleContainer
               else { height := some 40 }]
            label :=
              if strTruthy p.title then
                some
                  { variant := if ecs then "titleMedium" else "titleSmall"
                    numberOfLines := 1
                    style :=
                      [{ color := some titleColor,
                         marginLeft := some titleMargin }] ++
                      (if !ecs then [spreadFont font] else [])
                    maxFontSizeMultiplier := p.titleMaxFontSizeMultiplier
                    text := p.title.getD "" }
              else none }
      else none
    children := p.children
    divider :=
      if showDivider then
        some
          { horizontalInset := if isV3 then some (!ecs) else none
            bold := if isV3 then some true else none
            style :=
              [styles.divider] ++ (if isV3 then [styles.v3Divider] else [])
            theme := theme }
      else none }

/-- `src/components/TextInput/Adornment/enums.tsx`: `AdornmentType`. -/
inductive AdornmentType where
  | Icon
  | Affix
  | Loading
  deriving DecidableEq, Repr

/-- The string literal carried by each `AdornmentType` member. -/
def AdornmentType.value : AdornmentType → String
  | .Icon => "icon"
  | .Affix => "affix"
  | .Loading => "loading"

/-- `src/components/TextInput/Adornment/enums.tsx`: `AdornmentSide`. -/
inductive AdornmentSide where
  | Right
  | Left
  deriving DecidableEq, Repr

/-- The string literal carried by each `AdornmentSide` member. -/
def AdornmentSide.value : AdornmentSide → String
  | .Right => "right"
  | .Left => "left"

/-- `src/components/TextInput/Adornment/enums.tsx`: `InputMode`. -/
inductive InputMode where
  | Outlined
  | Flat
  deriving DecidableEq, Repr

/-- The string literal carried by each `InputMode` member. -/
def InputMode.value : InputMode → String
  | .Outlined => "outlined"
  | .Flat => "flat"

/-! Concrete sample data used by the witnesses. -/

/-- A sample legacy (pre-MD3) theme. -/
def legacyTheme : Theme :=
  { isV3 := false
    colors :=
      { text := { r := 0, g := 0, b := 0, alphaPct := 100 }
        onSurfaceVariant := { r := 73, g := 69, b := 79, alphaPct := 100 } }
    fonts :=
      { titleSmall :=
          { fontFamily := "System", fontWeight := "500", fontSize := 14 }
        medium :=
          { fontFamily := "System", fontWeight := "500", fontSize := 14 } } }

/-- A sample current-generation (MD3) theme. -/
def v3Theme : Theme :=
  { isV3 := true
    colors :=
      { text := { r := 28, g := 27, b := 31, alphaPct := 100 }
        onSurfaceVariant := { r := 73, g := 69, b := 79, alphaPct := 100 } }
    fonts :=
      { titleSmall :=
          { fontFamily := "System", fontWeight := "500", fontSize := 14 }
        medium :=
          { fontFamily := "System", fontWeight := "400", fontSize := 16 } } }

/-- Sample props: title "Settings", everything else defaulted. -/
def sampleProps : Props String :=
  { title := some "Settings", children := "items" }

/-- The title label of a render tree, when present: the inner `Text` node of
the title container. -/
def titleLabel {χ : Type} (t : RenderTree χ) : Option TextNode :=
  t.titleContainer.bind TitleContainer.label

/-- C1: for every ambient theme and every combination of the optional inputs,
two invocations of the `DrawerSection` render function with identical inputs
produce structurally identical render trees — the output is a deterministic
pure function of its inputs, with no dependence on hidden state. -/
theorem drawerSection_deterministic {χ : Type} (ambient : Theme)
    (p q : Props χ) (h : p = q) :
    DrawerSection ambient p = DrawerSection ambient q := by
  rw [h]

/-- Witness for C1 at a concrete MD3 theme and concrete props. -/
theorem drawerSection_deterministic_witness :
    sampleProps = sampleProps ∧
      DrawerSection v3Theme sampleProps = DrawerSection v3Theme sampleProps :=
  ⟨rfl, drawerSection_deterministic v3Theme sampleProps sampleProps rfl⟩

/-- C2: whenever a title label is rendered, its flattened style's color is
the theme's `onSurfaceVariant` on an MD3 theme and the theme's base text
color at 54% alpha on a legacy theme, for every combination of the other
flags. -/
theorem drawerSection_titleColor {χ : Type} (ambient : Theme) (p : Props χ)
    (h : strTruthy p.title = true) :
    (titleLabel (DrawerSection ambient p)).map
        (fun l => (flattenText l.style).color) =
      some (some
        (if (useInternalTheme p.theme ambient).isV3 then
          (useInternalTheme p.theme ambient).colors.onSurfaceVariant
        else alpha054 (useInternalTheme p.theme ambient).colors.text)) := by
  cases hv : (useInternalTheme p.theme ambient).isV3 <;>
    cases he : boolTruthy p.enableCustomStyle <;>
      simp [DrawerSection, titleLabel, h, hv, he, flattenText,
        TextStyle.merge, spreadFont, Option.orElse]

/-- Witness for C2: a legacy theme with the sample props. -/
theorem drawerSection_titleColor_witness :
    strTruthy sampleProps.title = true ∧
      (titleLabel (DrawerSection legacyTheme sampleProps)).map
          (fun l => (flattenText l.style).color) =
        some (some
          (if (useInternalTheme sampleProps.theme legacyTheme).isV3 then
            (useInternalTheme sampleProps.theme legacyTheme).colors.onSurfaceVariant
          else alpha054 (useInternalTheme sampleProps.theme legacyTheme).colors.text)) :=
  ⟨by decide, drawerSection_titleColor legacyTheme sampleProps (by decide)⟩

/-- C3: whenever a title is present, the flattened style of the emitted
title container has height 56 exactly when the theme is MD3 and
`enableCustomStyle` is not enabled, and height 40 in every other case. -/
theorem drawerSection_titleHeight {χ : Type} (ambient : Theme) (p : Props χ)
    (h : strTruthy p.title = true) :
    ((DrawerSection ambient p).titleContainer).map
        (fun tc => (flattenView tc.style).height) =
      some (some
        (if (useInternalTheme p.theme ambient).isV3 &&
            !(boolTruthy p.enableCustomStyle) then 56 else 40)) := by
  cases hv : (useInternalTheme p.theme ambient).isV3 <;>
    cases he : boolTruthy p.enableCustomStyle <;>
      simp [DrawerSection, h, hv, he, flattenView, ViewStyle.merge,
        styles.titleContainer, styles.v3TitleContainer, Option.orElse]

/-- Witness for C3: an MD3 theme with the sample props (no custom style). -/
theorem drawerSection_titleHeight_witness :
    strTruthy sampleProps.title = true ∧
      ((DrawerSection v3Theme sampleProps).titleContainer).map
          (fun tc => (flattenView tc.style).height) =
        some (some
          (if (useInternalTheme sampleProps.theme v3Theme).isV3 &&
              !(boolTruthy sampleProps.enableCustomStyle) then 56 else 40)) :=
  ⟨by decide, drawerSection_titleHeight v3Theme sampleProps (by decide)⟩

/-- C4: whenever a title is present, the title label's flattened left margin
is 28 exactly when the theme is MD3 and `enableCustomStyle` is not enabled,
and 16 otherwise. -/
theorem drawerSection_titleMargin {χ : Type} (ambient : Theme) (p : Props χ)
    (h : strTruthy p.title = true) :
    (titleLabel (DrawerSection ambient p)).map
        (fun l => (flattenText l.style).marginLeft) =
      some (some
        (if (useInternalTheme p.theme ambient).isV3 &&
            !(boolTruthy p.enableCustomStyle) then 28 else 16)) := by
  cases hv : (useInternalTheme p.theme ambient).isV3 <;>
    cases he : boolTruthy p.enableCustomStyle <;>
      simp [DrawerSection, titleLabel, h, hv, he, flattenText,
        TextStyle.merge, spreadFont, Option.orElse]

/-- Witness for C4: an MD3 theme with `enableCustomStyle` enabled. -/
theorem drawerSection_titleMargin_witness :
    strTruthy (sampleProps.title) = true ∧
      (titleLabel (DrawerSection v3Theme
            { sampleProps with enableCustomStyle := some true })).map
          (fun l => (flattenText l.style).marginLeft) =
        some (some
          (if (useInternalTheme sampleProps.theme v3Theme).isV3 &&
              !(boolTruthy (some true)) then 28 else 16)) :=
  ⟨by decide,
    drawerSection_titleMargin v3Theme
      { sampleProps with enableCustomStyle := some true } (by decide)⟩

/-- C5: whenever `showDivider` is true or omitted (it defaults to true), a
divider is emitted after the children; on an MD3 theme it carries
`horizontalInset` equal to the negation of `enableCustomStyle`, `bold` true,
and the MD3 background tint in its flattened style; on a legacy theme it
carries neither flag nor the tint. -/
theorem drawerSection_dividerProps {χ : Type} (ambient : Theme) (p : Props χ)
    (h : p.showDivider.getD true = true) :
    ∃ d : DividerNode, (DrawerSection ambient p).divider = some d ∧
      (if (useInternalTheme p.theme ambient).isV3 then
        d.horizontalInset = some (!(boolTruthy p.enableCustomStyle)) ∧
          d.bold = some true ∧
          (flattenView d.style).backgroundColor =
            some MD3Colors_neutralVariant50
      else
        d.horizontalInset = none ∧ d.bold = none ∧
          (flattenView d.style).backgroundColor = none) := by
  cases hv : (useInternalTheme p.theme ambient).isV3
  · refine ⟨{ horizontalInset := none, bold := none,
              style := [styles.divider],
              theme := useInternalTheme p.theme ambient }, ?_, ?_⟩ <;>
      simp [DrawerSection, h, hv, flattenView, ViewStyle.merge,
        styles.divider, Option.orElse]
  · refine ⟨{ horizontalInset := some (!(boolTruthy p.enableCustomStyle)),
              bold := some true,
              style := [styles.divider, styles.v3Divider],
              theme := useInternalTheme p.theme ambient }, ?_, ?_⟩ <;>
      simp [DrawerSection, h, hv, flattenView, ViewStyle.merge,
        styles.divider, styles.v3Divider, Option.orElse]

/-- Witness for C5: an MD3 theme with the sample props (divider omitted,
hence defaulted to true). -/
theorem drawerSection_dividerProps_witness :
    sampleProps.showDivider.getD true = true ∧
      ∃ d : DividerNode,
        (DrawerSection v3Theme sampleProps).divider = some d ∧
          (if (useInternalTheme sampleProps.theme v3Theme).isV3 then
            d.horizontalInset =
                some (!(boolTruthy sampleProps.enableCustomStyle)) ∧
              d.bold = some true ∧
              (flattenView d.style).backgroundColor =
                some MD3Colors_neutralVariant50
          else
            d.horizontalInset = none ∧ d.bold = none ∧
              (flattenView d.style).backgroundColor = none) :=
  ⟨rfl, drawerSection_dividerProps v3Theme sampleProps rfl⟩

/-- C6: for every theme and every combination of the other flags, when
`showDivider` is explicitly false the rendered output contains no divider
node. -/
theorem drawerSection_noDivider {χ : Type} (ambient : Theme) (p : Props χ)
    (h : p.showDivider = some false) :
    (DrawerSection ambient p).divider = none := by
  simp [DrawerSection, h]

/-- Witness for C6: sample props with `showDivider := some false`. -/
theorem drawerSection_noDivider_witness :
    ({ sampleProps with showDivider := some false } : Props String).showDivider
        = some false ∧
      (DrawerSection legacyTheme
          { sampleProps with showDivider := some false }).divider = none :=
  ⟨rfl, drawerSection_noDivider legacyTheme
    { sampleProps with showDivider := some false } rfl⟩

/-- C7: for every theme and every combination of `showDivider` and
`enableCustomStyle`, when the title input is absent the rendered output
contains no title container. -/
theorem drawerSection_noTitle {χ : Type} (ambient : Theme) (p : Props χ)
    (h : p.title = none) :
    (DrawerSection ambient p).titleContainer = none := by
  simp [DrawerSection, h, strTruthy]

/-- Witness for C7: props with no title at all. -/
theorem drawerSection_noTitle_witness :
    ({ sampleProps with title := none } : Props String).title = none ∧
      (DrawerSection v3Theme
          ({ sampleProps with title := none } : Props String)).titleContainer
        = none :=
  ⟨rfl, drawerSection_noTitle v3Theme { sampleProps with title := none } rfl⟩

/-- C8: whenever a title is present, the title label's flattened style is
exactly color and margin when `enableCustomStyle` is enabled (the resolved
font is omitted), and otherwise additionally carries the resolved font —
the theme's `titleSmall` on MD3, the theme's `medium` on legacy. -/
theorem drawerSection_titleFont {χ : Type} (ambient : Theme) (p : Props χ)
    (h : strTruthy p.title = true) :
    (titleLabel (DrawerSection ambient p)).map (fun l => flattenText l.style) =
      some
        (let theme := useInternalTheme p.theme ambient
         let resolvedFont :=
           if theme.isV3 then theme.fonts.titleSmall else theme.fonts.medium
         let base : TextStyle :=
           { color := some (if theme.isV3 then theme.colors.onSurfaceVariant
                            else alpha054 theme.colors.text)
             marginLeft :=
               some (if theme.isV3 && !(boolTruthy p.enableCustomStyle)
                     then 28 else 16) }
         if boolTruthy p.enableCustomStyle then base
         else
           { base with
               fontFamily := some resolvedFont.fontFamily
               fontWeight := some resolvedFont.fontWeight
               fontSize := some resolvedFont.fontSize }) := by
  cases hv : (useInternalTheme p.theme ambient).isV3 <;>
    cases he : boolTruthy p.enableCustomStyle <;>
      simp [DrawerSection, titleLabel, h, hv, he, flattenText,
        TextStyle.merge, spreadFont, Option.orElse]

/-- Witness for C8: a legacy theme with the sample props. -/
theorem drawerSection_titleFont_witness :
    strTruthy sampleProps.title = true ∧
      (titleLabel (DrawerSection legacyTheme sampleProps)).map
          (fun l => flattenText l.style) =
        some
          (let theme := useInternalTheme sampleProps.theme legacyTheme
           let resolvedFont :=
             if theme.isV3 then theme.fonts.titleSmall else theme.fonts.medium
           let base : TextStyle :=
             { color := some (if theme.isV3 then theme.colors.onSurfaceVariant
                              else alpha054 theme.colors.text)
               marginLeft :=
                 some (if theme.isV3 &&
                          !(boolTruthy sampleProps.enableCustomStyle)
                       then 28 else 16) }
           if boolTruthy sampleProps.enableCustomStyle then base
           else
             { base with
                 fontFamily := some resolvedFont.fontFamily
                 fontWeight := some resolvedFont.fontWeight
                 fontSize := some resolvedFont.fontSize }) :=
  ⟨by decide, drawerSection_titleFont legacyTheme sampleProps (by decide)⟩

/-- C9: the three adornment enumerations are exactly the closed sets
{Icon, Affix, Loading}, {Right, Left} and {Outlined, Flat}, and every
member carries its stated string literal. -/
theorem adornmentEnums_closed :
    (∀ t : AdornmentType,
        t = AdornmentType.Icon ∨ t = AdornmentType.Affix ∨
          t = AdornmentType.Loading) ∧
      AdornmentType.Icon.value = "icon" ∧
      AdornmentType.Affix.value = "affix" ∧
      AdornmentType.Loading.value = "loading" ∧
      (∀ s : AdornmentSide,
          s = AdornmentSide.Right ∨ s = AdornmentSide.Left) ∧
      AdornmentSide.Right.value = "right" ∧
      AdornmentSide.Left.value = "left" ∧
      (∀ m : InputMode, m = InputMode.Outlined ∨ m = InputMode.Flat) ∧
      InputMode.Outlined.value = "outlined" ∧
      InputMode.Flat.value = "flat" :=
  ⟨fun t => by cases t <;> simp, rfl, rfl, rfl,
    fun s => by cases s <;> simp, rfl, rfl,
    fun m => by cases m <;> simp, rfl, rfl⟩

/-- C10: when the title input is present but equal to the empty string, no
title container is emitted, exactly as in the absent-title case — the check
is on the string's truthiness. -/
theorem drawerSection_emptyTitle {χ : Type} (ambient : Theme) (p : Props χ)
    (h : p.title = some "") :
    (DrawerSection ambient p).titleContainer = none ∧
      (DrawerSection ambient p).titleContainer =
        (DrawerSection ambient { p with title := none }).titleContainer := by
  constructor <;> simp [DrawerSection, h, strTruthy]

/-- Witness for C10: sample props with the empty title. -/
theorem drawerSection_emptyTitle_witness :
    ({ sampleProps with title := some "" } : Props String).title = some "" ∧
      ((DrawerSection v3Theme
            ({ sampleProps with title := some "" } : Props String)).titleContainer
          = none ∧
        (DrawerSection v3Theme
            ({ sampleProps with title := some "" } : Props String)).titleContainer
          = (DrawerSection v3Theme
              { ({ sampleProps with title := some "" } : Props String) with
                  title := none }).titleContainer) :=
  ⟨rfl, drawerSection_emptyTitle v3Theme
    { sampleProps with title := some "" } rfl⟩
